import Mathlib

/-!
Shallow embedding of `custom_components/netatmo_custom/alarm_control_panel.py`
(the Netatmo alarm control panel entity) and proofs of its specification.

The pyatmo `home` aggregate is modelled as an association list of persons
(each with an `out_of_sight` flag) and of modules (each with an optional
`monitoring` flag); the entity's own device carries its optional `bridge`
parent id and its own `monitoring` flag.  The two async commands and the
update callback are modelled as pure state transformers that also return the
list of observable effects (the remote bulk-presence calls, the dispatcher
notification, the write of the HA state); the outcome of the single awaited
remote call is an explicit `Option Err` parameter, `none` meaning the call
returns normally.
-/

namespace NetatmoAlarm

/-- A person of the home (pyatmo person object): only the boolean
`out_of_sight` attribute is read or written by this component. -/
structure Person where
  out_of_sight : Bool
deriving DecidableEq, Repr

/-- A module of the home (camera or siren).  pyatmo declares `monitoring`
as `bool | None`, hence `Option Bool`. -/
structure HomeModule where
  monitoring : Option Bool
deriving DecidableEq, Repr

/-- The external home aggregate: its id, its id-keyed persons mapping and its
id-keyed modules mapping (Python dicts, modelled as association lists). -/
structure Home where
  entity_id : String
  persons : List (String × Person)
  modules : List (String × HomeModule)
deriving DecidableEq, Repr

/-- The entity's own device (the NIS siren): `bridge` is the parent module id
(`str | None` in pyatmo) and `monitoring` its own flag (`bool | None`). -/
structure Device where
  bridge : Option String
  monitoring : Option Bool
deriving DecidableEq, Repr

/-- A failure raised by one of the remote bulk-presence calls. -/
structure Err where
  msg : String
deriving DecidableEq, Repr

/-- Observable effects of the entity's operations: the two bulk-presence
calls on the home aggregate, the dispatcher notification, and the write of
the displayed state (with availability) to the platform. -/
inductive Event where
  | setPersonsAway : Event
  | setPersonsHome (person_ids : List String) : Event
  | notify (signal : String) : Event
  | writeHaState (state : String) (available : Bool) : Event
deriving DecidableEq, Repr

/-- `homeassistant.const.STATE_ALARM_DISARMED`. -/
def STATE_ALARM_DISARMED : String := "disarmed"

/-- `homeassistant.const.STATE_ALARM_ARMED_AWAY`. -/
def STATE_ALARM_ARMED_AWAY : String := "armed_away"

/-- `homeassistant.const.STATE_ALARM_ARMED_HOME`. -/
def STATE_ALARM_ARMED_HOME : String := "armed_home"

/-- Modelled from the spec: the `HOME` constant imported from
`data_handler` (that file is not under src/); only its use as a prefix of
the derived signal name matters here. -/
def HOME : String := "home"

/-- The entity description record (`NetatmoAlarmControlPanelEntityDescription`):
a key, a netatmo name and the ordered four-entry state list. -/
structure NetatmoAlarmControlPanelEntityDescription where
  key : String
  netatmo_name : String
  netatmo_alarm_states : List (Option String)
deriving DecidableEq, Repr

/-- The `ALARM_TYPE` description constant: its state list is
`[None, STATE_ALARM_DISARMED, STATE_ALARM_ARMED_AWAY, STATE_ALARM_ARMED_HOME]`. -/
def ALARM_TYPE : NetatmoAlarmControlPanelEntityDescription :=
  { key := "netatmo_alarm"
    netatmo_name := "alarm"
    netatmo_alarm_states :=
      [none, some STATE_ALARM_DISARMED, some STATE_ALARM_ARMED_AWAY,
        some STATE_ALARM_ARMED_HOME] }

/-- The mutable state of one `NetatmoAlarmEntity`: the borrowed home and
device objects, the derived signal name, and the entity's cached
`_attr_available` / `_attr_state` attributes. -/
structure EntityState where
  home : Home
  device : Device
  signal_name : String
  attr_available : Bool
  attr_state : Option String
deriving DecidableEq, Repr

/-- `NetatmoAlarmEntity.__init__`: derives the signal name
`f"{HOME}-{self.home.entity_id}"`; `_attr_state` starts unset and
`_attr_available` starts at the platform default `True`. -/
def mkEntity (home : Home) (device : Device) : EntityState :=
  { home := home
    device := device
    signal_name := HOME ++ "-" ++ home.entity_id
    attr_available := true
    attr_state := none }

/-- `NetatmoAlarmEntity.is_house_empty`: builds the list of all persons'
`out_of_sight` flags and takes `all` of it. -/
def is_house_empty (s : EntityState) : Bool :=
  let persons_out_of_sight := s.home.persons.map (fun p => p.2.out_of_sight)
  persons_out_of_sight.all (fun b => b)

/-- `NetatmoAlarmEntity.is_camera_monitoring`: Python tests the truthiness of
`self.device.bridge` (false for `None` and for the empty string), looks the id
up in `self.home.modules` (a found module object is always truthy, as is the
`cast` of it), and returns `camera.monitoring or False`; every falsy branch
returns `False`. -/
def is_camera_monitoring (s : EntityState) : Bool :=
  match s.device.bridge with
  | some parent_module_id =>
    if parent_module_id = "" then false
    else
      match s.home.modules.lookup parent_module_id with
      | some parent_module => parent_module.monitoring.getD false
      | none => false
  | none => false

/-- `NetatmoAlarmEntity.is_siren_monitoring`: the `cast` of `self.device` is
the device object itself and is always truthy, so this returns
`siren.monitoring or False`. -/
def is_siren_monitoring (s : EntityState) : Bool :=
  s.device.monitoring.getD false

/-- The loop shared by both command handlers: force-set every person's
`out_of_sight` flag to `b`. -/
def setAllOutOfSight (h : Home) (b : Bool) : Home :=
  { h with
    persons := h.persons.map (fun p => (p.1, { p.2 with out_of_sight := b })) }

/-- `NetatmoAlarmEntity.async_alarm_disarm`: collects the full list of person
ids, awaits `home.async_set_persons_home(person_ids)` (outcome `fail`), and
only when that call returns normally force-sets every `out_of_sight` flag to
`False` and notifies on the entity's signal name.  A raised failure
propagates unmodified with the state untouched. -/
def async_alarm_disarm (fail : Option Err) (code : Option String)
    (s : EntityState) : EntityState × List Event × Option Err :=
  let person_ids := s.home.persons.map Prod.fst
  match fail with
  | some e => (s, [Event.setPersonsHome person_ids], some e)
  | none =>
    ({ s with home := setAllOutOfSight s.home false },
      [Event.setPersonsHome person_ids, Event.notify s.signal_name], none)

/-- `NetatmoAlarmEntity.async_alarm_arm_away`: awaits
`home.async_set_persons_away()` (outcome `fail`), and only when that call
returns normally force-sets every `out_of_sight` flag to `True` and notifies
on the entity's signal name. -/
def async_alarm_arm_away (fail : Option Err) (code : Option String)
    (s : EntityState) : EntityState × List Event × Option Err :=
  match fail with
  | some e => (s, [Event.setPersonsAway], some e)
  | none =>
    ({ s with home := setAllOutOfSight s.home true },
      [Event.setPersonsAway, Event.notify s.signal_name], none)

/-- `NetatmoAlarmEntity.async_update_callback`: recomputes
`_attr_available` as camera-monitoring AND siren-monitoring, recomputes
`_attr_state` as armed-away when the house is empty and disarmed otherwise,
then calls `async_write_ha_state()`. -/
def async_update_callback (s : EntityState) : EntityState × List Event :=
  let avail := is_camera_monitoring s && is_siren_monitoring s
  let st := if is_house_empty s then STATE_ALARM_ARMED_AWAY
            else STATE_ALARM_DISARMED
  ({ s with attr_available := avail, attr_state := some st },
    [Event.writeHaState st avail])

/-- One platform-visible operation on the entity: the two commands (with the
outcome of the awaited remote call and the code argument) and the
notification-triggered refresh. -/
inductive Op where
  | disarm (fail : Option Err) (code : Option String) : Op
  | armAway (fail : Option Err) (code : Option String) : Op
  | refresh : Op
deriving DecidableEq, Repr

/-- Run one operation: the new entity state and the emitted effects. -/
def runOp (op : Op) (s : EntityState) : EntityState × List Event :=
  match op with
  | .disarm fail code =>
    let r := async_alarm_disarm fail code s
    (r.1, r.2.1)
  | .armAway fail code =>
    let r := async_alarm_arm_away fail code s
    (r.1, r.2.1)
  | .refresh => async_update_callback s

/-- Run a sequence of operations, accumulating the emitted effects. -/
def runOps (ops : List Op) (s : EntityState) : EntityState × List Event :=
  match ops with
  | [] => (s, [])
  | op :: rest =>
    let r := runOp op s
    let r' := runOps rest r.1
    (r'.1, r.2 ++ r'.2)

/-- Fixture: a home with one person who is not out of sight and one camera
module that is monitoring. -/
def exampleHome : Home :=
  { entity_id := "home1"
    persons := [("alice", { out_of_sight := false })]
    modules := [("cam1", { monitoring := some true })] }

/-- Fixture: the entity's device, bridged to the camera and monitoring. -/
def exampleDevice : Device :=
  { bridge := some "cam1", monitoring := some true }

/-- Fixture: the entity built on `exampleHome` and `exampleDevice`. -/
def exampleState : EntityState := mkEntity exampleHome exampleDevice

/-- Fixture: `exampleState` after one refresh (displays disarmed). -/
def exampleAfterRefresh : EntityState := (async_update_callback exampleState).1

/-- Fixture: `exampleAfterRefresh` after a successful ArmAway and before any
further refresh. -/
def exampleAfterArm : EntityState :=
  (async_alarm_arm_away none none exampleAfterRefresh).1

/-- Fixture for the camera-monitoring truthiness counterexample: the device's
bridge id is the empty string, and the home's module set does contain a
module under the empty-string id whose monitoring flag is true. -/
def emptyBridgeHome : Home :=
  { entity_id := "home4"
    persons := []
    modules := [("", { monitoring := some true })] }

/-- Fixture: a device whose bridge id is set to the empty string. -/
def emptyBridgeDevice : Device :=
  { bridge := some "", monitoring := some true }

/-- Fixture: the entity built on `emptyBridgeHome` and `emptyBridgeDevice`. -/
def emptyBridgeState : EntityState := mkEntity emptyBridgeHome emptyBridgeDevice

/-! ## Helper lemmas -/

/-- `is_house_empty` is the conjunction of all persons' flags. -/
theorem is_house_empty_iff_forall (s : EntityState) :
    is_house_empty s = true ↔ ∀ p ∈ s.home.persons, p.2.out_of_sight = true := by
  unfold is_house_empty
  simp [List.all_eq_true, List.mem_map]

/-- Any state write emitted by a single operation is armed-away or
disarmed. -/
theorem runOp_write_mem (op : Op) (s : EntityState) (st : String) (av : Bool)
    (h : Event.writeHaState st av ∈ (runOp op s).2) :
    st = STATE_ALARM_ARMED_AWAY ∨ st = STATE_ALARM_DISARMED := by
  cases op with
  | disarm fail code =>
    cases fail <;> simp [runOp, async_alarm_disarm] at h
  | armAway fail code =>
    cases fail <;> simp [runOp, async_alarm_arm_away] at h
  | refresh =>
    simp [runOp, async_update_callback] at h
    rcases h with ⟨h1, _⟩
    by_cases hh : is_house_empty s = true
    · left; simp [hh] at h1; exact h1
    · right; simp [hh] at h1; exact h1

/-- Any state write emitted along a sequence of operations is armed-away or
disarmed. -/
theorem runOps_write_mem (ops : List Op) (s : EntityState) (st : String)
    (av : Bool) (h : Event.writeHaState st av ∈ (runOps ops s).2) :
    st = STATE_ALARM_ARMED_AWAY ∨ st = STATE_ALARM_DISARMED := by
  induction ops generalizing s with
  | nil => simp [runOps] at h
  | cons op rest ih =>
    simp only [runOps, List.mem_append] at h
    cases h with
    | inl h => exact runOp_write_mem op s st av h
    | inr h => exact ih _ h

/-! ## Claim theorems -/

/-- Claim C1: refresh sets availability to true iff both camera monitoring
and siren monitoring are true, sets the displayed state to armed-away iff
every person is out of sight (else disarmed), and writes exactly that state
and availability to the platform. -/
theorem update_callback_spec (s : EntityState) :
    ((async_update_callback s).1.attr_available = true ↔
      (is_camera_monitoring s = true ∧ is_siren_monitoring s = true)) ∧
    ((async_update_callback s).1.attr_state = some STATE_ALARM_ARMED_AWAY ↔
      ∀ p ∈ s.home.persons, p.2.out_of_sight = true) ∧
    ((¬ ∀ p ∈ s.home.persons, p.2.out_of_sight = true) →
      (async_update_callback s).1.attr_state = some STATE_ALARM_DISARMED) ∧
    (async_update_callback s).2 =
      [Event.writeHaState
        (if is_house_empty s then STATE_ALARM_ARMED_AWAY
          else STATE_ALARM_DISARMED)
        ((async_update_callback s).1.attr_available)] := by
  have hall := is_house_empty_iff_forall s
  refine ⟨?_, ?_, ?_, ?_⟩
  · simp [async_update_callback]
  · rw [← hall]
    by_cases hh : is_house_empty s = true
    · simp [async_update_callback, hh]
    · simp only [async_update_callback, hh, if_false, Bool.not_eq_true] at *
      simp [hh, STATE_ALARM_DISARMED, STATE_ALARM_ARMED_AWAY]
  · intro hn
    rw [← hall] at hn
    have hh : is_house_empty s = false := by
      cases hfe : is_house_empty s
      · rfl
      · exact absurd hfe hn
    simp [async_update_callback, hh]
  · simp [async_update_callback]

/-- Claim C2: a normally returning ArmAway leaves no error, sets every
person's out-of-sight flag to true, performs the bulk away-call exactly
once, and emits exactly one notification, on the entity's signal name. -/
theorem arm_away_spec (code : Option String) (s : EntityState) :
    (async_alarm_arm_away none code s).2.2 = none ∧
    (∀ p ∈ (async_alarm_arm_away none code s).1.home.persons,
      p.2.out_of_sight = true) ∧
    (async_alarm_arm_away none code s).2.1.count Event.setPersonsAway = 1 ∧
    (async_alarm_arm_away none code s).2.1.count
      (Event.notify s.signal_name) = 1 ∧
    (∀ sig, Event.notify sig ∈ (async_alarm_arm_away none code s).2.1 →
      sig = s.signal_name) := by
  refine ⟨rfl, ?_, ?_, ?_, ?_⟩
  · intro p hp
    simp [async_alarm_arm_away, setAllOutOfSight, List.mem_map] at hp
    rcases hp with ⟨a, ha, rfl⟩
    rfl
  · simp [async_alarm_arm_away, List.count_cons, List.count_nil]
  · simp [async_alarm_arm_away, List.count_cons, List.count_nil]
  · intro sig hsig
    simp [async_alarm_arm_away] at hsig
    exact hsig

/-- Claim C3: a normally returning Disarm leaves no error, sets every
person's out-of-sight flag to false, performs the bulk home-call exactly
once with exactly the full list of known person ids, and emits exactly one
notification, on the entity's signal name. -/
theorem disarm_spec (code : Option String) (s : EntityState) :
    (async_alarm_disarm none code s).2.2 = none ∧
    (∀ p ∈ (async_alarm_disarm none code s).1.home.persons,
      p.2.out_of_sight = false) ∧
    (async_alarm_disarm none code s).2.1.count
      (Event.setPersonsHome (s.home.persons.map Prod.fst)) = 1 ∧
    (∀ ids, Event.setPersonsHome ids ∈ (async_alarm_disarm none code s).2.1 →
      ids = s.home.persons.map Prod.fst) ∧
    (async_alarm_disarm none code s).2.1.count
      (Event.notify s.signal_name) = 1 ∧
    (∀ sig, Event.notify sig ∈ (async_alarm_disarm none code s).2.1 →
      sig = s.signal_name) := by
  refine ⟨rfl, ?_, ?_, ?_, ?_, ?_⟩
  · intro p hp
    simp [async_alarm_disarm, setAllOutOfSight, List.mem_map] at hp
    rcases hp with ⟨a, ha, rfl⟩
    rfl
  · simp [async_alarm_disarm, List.count_cons, List.count_nil]
  · intro ids hids
    simp [async_alarm_disarm] at hids
    exact hids
  · simp [async_alarm_disarm, List.count_cons, List.count_nil]
  · intro sig hsig
    simp [async_alarm_disarm] at hsig
    exact hsig

/-- Claim C4 counterexample: with the bridge id set to the empty string and
a module present under that id with monitoring true, the code returns false,
refuting the claim that camera-monitoring is true whenever the bridge id is
set, the module is found and its monitoring flag is true (Python treats the
empty string as falsy). -/
theorem camera_monitoring_claim_counterexample :
    is_camera_monitoring emptyBridgeState = false ∧
    emptyBridgeState.device.bridge = some "" ∧
    emptyBridgeState.home.modules.lookup "" =
      some { monitoring := some true } ∧
    ¬ (is_camera_monitoring emptyBridgeState = true ↔
        ∃ pid, emptyBridgeState.device.bridge = some pid ∧
          ∃ m, emptyBridgeState.home.modules.lookup pid = some m ∧
            m.monitoring = some true) := by
  refine ⟨rfl, rfl, rfl, ?_⟩
  intro h
  have : is_camera_monitoring emptyBridgeState = true :=
    h.mpr ⟨"", rfl, ⟨{ monitoring := some true }, rfl, rfl⟩⟩
  simp [is_camera_monitoring, emptyBridgeState, mkEntity,
    emptyBridgeDevice] at this

/-- Claim C4 (amended): camera-monitoring is true exactly when the bridge id
is set to a non-empty id, the parent module is found under that id, and that
module's monitoring flag is true; it is false whenever the bridge id is
unset or empty, the module lookup fails, or the flag is false or absent. -/
theorem camera_monitoring_spec (s : EntityState) :
    is_camera_monitoring s = true ↔
      ∃ pid, s.device.bridge = some pid ∧ pid ≠ "" ∧
        ∃ m, s.home.modules.lookup pid = some m ∧
          m.monitoring = some true := by
  unfold is_camera_monitoring
  cases hb : s.device.bridge with
  | none => simp
  | some pid =>
    by_cases hpid : pid = ""
    · subst hpid
      simp
    · simp only [hpid, if_false]
      cases hm : s.home.modules.lookup pid with
      | none => simp [hpid, hm]
      | some m =>
        cases hmon : m.monitoring with
        | none => simp [hpid, hm, hmon]
        | some b => cases b <;> simp [hpid, hm, hmon]

/-- Claim C5: the house is empty iff every person's out-of-sight flag is
true, vacuously so for a home with zero persons. -/
theorem house_empty_spec (s : EntityState) :
    (is_house_empty s = true ↔
      ∀ p ∈ s.home.persons, p.2.out_of_sight = true) ∧
    (s.home.persons = [] → is_house_empty s = true) := by
  refine ⟨is_house_empty_iff_forall s, ?_⟩
  intro h
  simp [is_house_empty, h]

/-- Claim C6 counterexample: after a refresh showed disarmed, a successful
ArmAway flips every person to out-of-sight but leaves the displayed state at
its cached value, so the displayed state disagrees with the projection
recomputed from the current flags until the next refresh. -/
theorem displayed_state_stale_counterexample :
    exampleAfterArm.attr_state = some STATE_ALARM_DISARMED ∧
    is_house_empty exampleAfterArm = true ∧
    (if is_house_empty exampleAfterArm then STATE_ALARM_ARMED_AWAY
      else STATE_ALARM_DISARMED) = STATE_ALARM_ARMED_AWAY ∧
    exampleAfterArm.attr_state ≠ some STATE_ALARM_ARMED_AWAY := by
  refine ⟨rfl, rfl, rfl, ?_⟩
  decide

/-- Claim C6 (amended): the displayed state is recomputed from the current
flags only at refresh time and cached in between: each refresh re-establishes
it as the projection of the current person flags, while ArmAway and Disarm
leave the cached displayed state untouched (so it can be stale until the
next refresh). -/
theorem displayed_state_refresh_only (s : EntityState) (fail : Option Err)
    (code : Option String) :
    (async_update_callback s).1.attr_state =
      some (if is_house_empty s then STATE_ALARM_ARMED_AWAY
        else STATE_ALARM_DISARMED) ∧
    (async_update_callback s).1.home = s.home ∧
    (async_alarm_arm_away fail code s).1.attr_state = s.attr_state ∧
    (async_alarm_disarm fail code s).1.attr_state = s.attr_state := by
  refine ⟨rfl, rfl, ?_, ?_⟩
  · cases fail <;> rfl
  · cases fail <;> rfl

/-- Claim C7: along any sequence of Disarm, ArmAway and refresh operations,
every state written to the platform is armed-away or disarmed; the
armed-home label of `ALARM_TYPE`'s four-entry list is never produced (nor is
its unset first entry, since every write carries one of the two strings,
both of which sit in the list). -/
theorem written_states_two_valued (ops : List Op) (s : EntityState)
    (st : String) (av : Bool)
    (h : Event.writeHaState st av ∈ (runOps ops s).2) :
    (st = STATE_ALARM_ARMED_AWAY ∨ st = STATE_ALARM_DISARMED) ∧
    st ≠ STATE_ALARM_ARMED_HOME ∧
    some st ∈ ALARM_TYPE.netatmo_alarm_states := by
  have hd := runOps_write_mem ops s st av h
  refine ⟨hd, ?_, ?_⟩
  · rcases hd with h1 | h1 <;> subst h1 <;> decide
  · rcases hd with h1 | h1 <;> subst h1 <;> decide

/-- Witness for C7 at a concrete input: one refresh of `exampleState`
writes the disarmed state. -/
theorem written_states_two_valued_witness :
    (STATE_ALARM_DISARMED = STATE_ALARM_ARMED_AWAY ∨
      STATE_ALARM_DISARMED = STATE_ALARM_DISARMED) ∧
    STATE_ALARM_DISARMED ≠ STATE_ALARM_ARMED_HOME ∧
    some STATE_ALARM_DISARMED ∈ ALARM_TYPE.netatmo_alarm_states :=
  written_states_two_valued [Op.refresh] exampleState STATE_ALARM_DISARMED
    true (by decide)

/-- Claim C8: when the awaited bulk-presence call raises, the failure
propagates unmodified, the entity state (in particular every person's
out-of-sight flag) is untouched, only the failed remote call was performed,
and no notification was emitted. -/
theorem command_failure_spec (s : EntityState) (e : Err)
    (code : Option String) :
    async_alarm_arm_away (some e) code s =
      (s, [Event.setPersonsAway], some e) ∧
    async_alarm_disarm (some e) code s =
      (s, [Event.setPersonsHome (s.home.persons.map Prod.fst)], some e) ∧
    Event.notify s.signal_name ∉ (async_alarm_arm_away (some e) code s).2.1 ∧
    Event.notify s.signal_name ∉ (async_alarm_disarm (some e) code s).2.1 := by
  refine ⟨rfl, rfl, ?_, ?_⟩
  · simp [async_alarm_arm_away]
  · simp [async_alarm_disarm]

/-- Claim C9: the code argument has no influence: ArmAway and Disarm behave
identically under any two code arguments (for any outcome of the remote
call). -/
theorem code_ignored (s : EntityState) (fail : Option Err)
    (c1 c2 : Option String) :
    async_alarm_arm_away fail c1 s = async_alarm_arm_away fail c2 s ∧
    async_alarm_disarm fail c1 s = async_alarm_disarm fail c2 s :=
  ⟨rfl, rfl⟩

/-- Claim C10: siren-monitoring is true exactly when the device's own
monitoring flag is true, and false when that flag is false or absent. -/
theorem siren_monitoring_spec (s : EntityState) :
    (is_siren_monitoring s = true ↔ s.device.monitoring = some true) ∧
    (s.device.monitoring = none → is_siren_monitoring s = false) ∧
    (s.device.monitoring = some false → is_siren_monitoring s = false) := by
  refine ⟨?_, ?_, ?_⟩
  · cases hm : s.device.monitoring with
    | none => simp [is_siren_monitoring, hm]
    | some b => cases b <;> simp [is_siren_monitoring, hm]
  · intro h; simp [is_siren_monitoring, h]
  · intro h; simp [is_siren_monitoring, h]

end NetatmoAlarm
